import Mathlib

/-!
# Dual-stack iptables manager (`iptables.go`)

A shallow embedding of `newIPTables`, `Init`, `Add`, `ShutDown` and `Delete`
of `iptables.go`, and theorems about which per-family context operations each
of them invokes, in which order, and what they return.

Modelling conventions.

* Go `string` values are Lean `String`s (text; the decision values come from a
  JSON feed).  `strings.HasPrefix` and `strings.Contains` are embedded over the
  character lists.
* A Go `error` is an `Option String`: `none` is `nil`, `some msg` is an error
  whose `Error()` text is `msg`.  `fmt.Errorf` with `%s` verbs is string
  concatenation.
* The methods of `*ipTablesContext` (`shutDown`, `CheckAndCreate`, `add`,
  `delete`) live outside `iptables.go`.  They are a parameter `ContextOps σ`:
  arbitrary functions on an arbitrary world state `σ` that may fail and may
  change the world whether or not they fail.
* Every invocation of a context method is recorded, in order, with its receiver
  (`ipt.v4` or `ipt.v6`), its argument and the error it returned.
* `log.Printf` / `log.Debugf` calls have no effect on control flow, on the
  contexts or on the returned error and are left out.
* `ipt.v4` is set by `newIPTables` on every successful construction, so it is a
  plain field; `ipt.v6` may be `nil` and is an `Option`.  The `*string` fields of
  `models.Decision` are taken non-nil.
-/

/-! ## Data model -/

/-- The two fields of `models.Decision` that `iptables.go` reads
(`*decision.Type`, `*decision.Value`). -/
structure Decision where
  Type_ : String
  Value : String
deriving DecidableEq, Repr

/-- The fields of `ipTablesContext` that `newIPTables` fills in. -/
structure ipTablesContext where
  Name : String
  version : String
  ipsetBin : String
  iptablesBin : String
  SetName : String
  StartupCmds : List (List String)
  ShutdownCmds : List (List String)
  CheckIptableCmds : List (List String)
deriving DecidableEq, Repr

/-- The manager: `type iptables struct { v4 *ipTablesContext; v6 *ipTablesContext }`. -/
structure iptables where
  v4 : ipTablesContext
  v6 : Option ipTablesContext
deriving DecidableEq, Repr

/-- The two fields of `bouncerConfig` that `newIPTables` reads. -/
structure bouncerConfig where
  IptablesChains : List String
  DisableIPV6 : Bool
deriving DecidableEq, Repr

/-! ## `strings` helpers -/

/-- Go `strings.HasPrefix(s, pre)`. -/
def HasPrefix (s pre : String) : Bool :=
  pre.data.isPrefixOf s.data

/-- Go `strings.Contains(s, substr)`: `substr` occurs at some position of `s`. -/
def Contains (s substr : String) : Bool :=
  s.data.tails.any (fun t => substr.data.isPrefixOf t)

/-! ## Context operations and their trace -/

/-- Which field of the manager a context method is called on. -/
inductive Family where
  | v4
  | v6
deriving DecidableEq, Repr

/-- The context methods called from `iptables.go`, with their argument. -/
inductive CtxOp where
  | shutDown
  | CheckAndCreate
  | add (d : Decision)
  | delete (d : Decision)
deriving DecidableEq, Repr

/-- One invocation of a context method: receiver, method, returned error. -/
structure Event where
  recv : Family
  op : CtxOp
  res : Option String
deriving DecidableEq, Repr

/-- The methods of `*ipTablesContext`, which are defined outside `iptables.go`:
each takes the receiver and the world and returns an error (or `none`) and the
new world. -/
structure ContextOps (σ : Type) where
  shutDown : ipTablesContext → σ → Option String × σ
  CheckAndCreate : ipTablesContext → σ → Option String × σ
  add : ipTablesContext → Decision → σ → Option String × σ
  delete : ipTablesContext → Decision → σ → Option String × σ

/-- Computations that thread the world and the trace of context invocations. -/
abbrev Exec (σ : Type) := StateM (σ × List Event)

/-- Call the context method `op` on `ctx` (the manager field `recv`), record
the call and hand back the error it returned. -/
def invoke {σ : Type} (K : ContextOps σ) (recv : Family) (ctx : ipTablesContext)
    (op : CtxOp) : Exec σ (Option String) := fun s =>
  let r := match op with
    | .shutDown => K.shutDown ctx s.1
    | .CheckAndCreate => K.CheckAndCreate ctx s.1
    | .add d => K.add ctx d s.1
    | .delete d => K.delete ctx d s.1
  (r.1, (r.2, s.2 ++ [⟨recv, op, r.1⟩]))

/-- What a manager operation did: the returned error, the final world and the
context invocations in the order they were made. -/
structure Outcome (σ : Type) where
  err : Option String
  world : σ
  trace : List Event

/-- Run a manager operation from world `w` with an empty trace. -/
def runFrom {σ : Type} (w : σ) (x : Exec σ (Option String)) : Outcome σ :=
  let r := x.run (w, [])
  ⟨r.1, r.2.1, r.2.2⟩

/-! ## The manager operations -/

/-- `func (ipt *iptables) Init() error`. -/
def iptables.Init {σ : Type} (K : ContextOps σ) (ipt : iptables) : Exec σ (Option String) := do
  -- flush before init
  if let some err ← invoke K .v4 ipt.v4 .shutDown then
    return some ("iptables shutdown failed: " ++ err)
  -- Create iptable to rule to attach the set
  if let some err ← invoke K .v4 ipt.v4 .CheckAndCreate then
    return some ("iptables init failed: " ++ err)
  if let some v6 := ipt.v6 then
    let err ← invoke K .v6 v6 .shutDown -- flush before init
    if let some e := err then
      return some ("iptables shutdown failed: " ++ e)
    -- Create iptable to rule to attach the set
    if let some err ← invoke K .v6 v6 .CheckAndCreate then
      return some ("iptables init failed: " ++ err)
  return none

/-- `func (ipt *iptables) Add(decision *models.Decision) error`. -/
def iptables.Add {σ : Type} (K : ContextOps σ) (ipt : iptables) (decision : Decision) :
    Exec σ (Option String) := do
  let mut done := false
  if HasPrefix decision.Type_ "simulation:" then
    return none
  if Contains decision.Value ":" then
    match ipt.v6 with
    | some v6 =>
      if let some _ ← invoke K .v6 v6 (.add decision) then
        return some ("failed inserting ban ip '" ++ decision.Value ++ "' for iptables ipv4 rule")
      done := true
    | none =>
      return none
  if Contains decision.Value "." then
    if let some _ ← invoke K .v4 ipt.v4 (.add decision) then
      return some ("failed inserting ban ip '" ++ decision.Value ++ "' for iptables ipv6 rule")
    done := true
  if !done then
    return some ("failed inserting ban: ip " ++ decision.Value ++ " was not recognised")
  return none

/-- `func (ipt *iptables) ShutDown() error`. -/
def iptables.ShutDown {σ : Type} (K : ContextOps σ) (ipt : iptables) : Exec σ (Option String) := do
  let err ← invoke K .v4 ipt.v4 .shutDown
  if let some e := err then
    return some ("iptables for ipv4 shutdown failed: " ++ e)
  if let some v6 := ipt.v6 then
    let err ← invoke K .v6 v6 .shutDown
    if let some e := err then
      return some ("iptables for ipv6 shutdown failed: " ++ e)
  return none

/-- `func (ipt *iptables) Delete(decision *models.Decision) error`. -/
def iptables.Delete {σ : Type} (K : ContextOps σ) (ipt : iptables) (decision : Decision) :
    Exec σ (Option String) := do
  let mut done := false
  if Contains decision.Value ":" then
    match ipt.v6 with
    | some v6 =>
      if let some _ ← invoke K .v6 v6 (.delete decision) then
        return some "failed deleting ban"
      done := true
    | none =>
      return none
  if Contains decision.Value "." then
    if let some _ ← invoke K .v4 ipt.v4 (.delete decision) then
      return some "failed deleting ban"
    done := true
  if !done then
    return some ("failed deleting ban: ip " ++ decision.Value ++ " was not recognised")
  return none

/-! ## Construction -/

/-- The body of the `for _, v := range config.IptablesChains` loop of
`newIPTables`: one command appended to each of the three lists, all three
referencing the set `set`. -/
def appendChainCmds (set : String) (ctx : ipTablesContext) (v : String) : ipTablesContext :=
  { ctx with
    StartupCmds := ctx.StartupCmds ++
      [["-I", v, "-m", "set", "--match-set", set, "src", "-j", "DROP"]]
    ShutdownCmds := ctx.ShutdownCmds ++
      [["-D", v, "-m", "set", "--match-set", set, "src", "-j", "DROP"]]
    CheckIptableCmds := ctx.CheckIptableCmds ++
      [["-C", v, "-m", "set", "--match-set", set, "src", "-j", "DROP"]] }

/-- `func newIPTables(config *bouncerConfig) (interface{}, error)`.
`LookPath` is `exec.LookPath`: `none` when the binary is not found. -/
def newIPTables (LookPath : String → Option String) (config : bouncerConfig) :
    Except String iptables :=
  let ipv4Ctx : ipTablesContext :=
    { Name := "ipset"
      version := "v4"
      ipsetBin := ""
      iptablesBin := ""
      SetName := "crowdsec-blacklists"
      StartupCmds := []
      ShutdownCmds := []
      CheckIptableCmds := [] }
  let ipv4Ctx := config.IptablesChains.foldl (appendChainCmds "crowdsec-blacklists") ipv4Ctx
  match LookPath "ipset" with
  | none => .error "unable to find ipset"
  | some ipsetBin =>
    match LookPath "iptables" with
    | none => .error "unable to find iptables"
    | some bin =>
      let ipv4Ctx := { ipv4Ctx with iptablesBin := bin }
      let ipv4Ctx := { ipv4Ctx with ipsetBin := ipsetBin }
      let ret : iptables := { v4 := ipv4Ctx, v6 := none }
      if !config.DisableIPV6 then
        let ipv6Ctx : ipTablesContext :=
          { Name := "ipset"
            version := "v6"
            ipsetBin := ""
            iptablesBin := ""
            SetName := "crowdsec6-blacklists"
            StartupCmds := []
            ShutdownCmds := []
            CheckIptableCmds := [] }
        let ipv6Ctx :=
          config.IptablesChains.foldl (appendChainCmds "crowdsec6-blacklists") ipv6Ctx
        let ipv6Ctx := { ipv6Ctx with ipsetBin := ipsetBin }
        match LookPath "ip6tables" with
        | none => .error "unable to find iptables"
        | some bin6 =>
          let ipv6Ctx := { ipv6Ctx with iptablesBin := bin6 }
          .ok { ret with v6 := some ipv6Ctx }
      else
        .ok ret

/-! ## Concrete worlds used to evaluate the model -/

/-- A world in which every context operation succeeds. -/
def okOps : ContextOps Unit :=
  { shutDown := fun _ w => (none, w)
    CheckAndCreate := fun _ w => (none, w)
    add := fun _ _ w => (none, w)
    delete := fun _ _ w => (none, w) }

/-- A world in which every context operation fails with the text `exit status 1`. -/
def failOps : ContextOps Unit :=
  { shutDown := fun _ w => (some "exit status 1", w)
    CheckAndCreate := fun _ w => (some "exit status 1", w)
    add := fun _ _ w => (some "exit status 1", w)
    delete := fun _ _ w => (some "exit status 1", w) }

/-- Resolve every binary to a path under `/usr/sbin/`. -/
def lookAll (name : String) : Option String := some ("/usr/sbin/" ++ name)

/-- Configuration `chains = ["INPUT"]`, IPv6 enabled. -/
def inputConfig : bouncerConfig := { IptablesChains := ["INPUT"], DisableIPV6 := false }

/-- The v4 context for `chains = ["INPUT"]`. -/
def v4Ctx : ipTablesContext :=
  { Name := "ipset"
    version := "v4"
    ipsetBin := "/usr/sbin/ipset"
    iptablesBin := "/usr/sbin/iptables"
    SetName := "crowdsec-blacklists"
    StartupCmds := [["-I", "INPUT", "-m", "set", "--match-set", "crowdsec-blacklists", "src", "-j", "DROP"]]
    ShutdownCmds := [["-D", "INPUT", "-m", "set", "--match-set", "crowdsec-blacklists", "src", "-j", "DROP"]]
    CheckIptableCmds := [["-C", "INPUT", "-m", "set", "--match-set", "crowdsec-blacklists", "src", "-j", "DROP"]] }

/-- The v6 context for `chains = ["INPUT"]`. -/
def v6Ctx : ipTablesContext :=
  { Name := "ipset"
    version := "v6"
    ipsetBin := "/usr/sbin/ipset"
    iptablesBin := "/usr/sbin/ip6tables"
    SetName := "crowdsec6-blacklists"
    StartupCmds := [["-I", "INPUT", "-m", "set", "--match-set", "crowdsec6-blacklists", "src", "-j", "DROP"]]
    ShutdownCmds := [["-D", "INPUT", "-m", "set", "--match-set", "crowdsec6-blacklists", "src", "-j", "DROP"]]
    CheckIptableCmds := [["-C", "INPUT", "-m", "set", "--match-set", "crowdsec6-blacklists", "src", "-j", "DROP"]] }

/-- A manager with both contexts present. -/
def dualStack : iptables := { v4 := v4Ctx, v6 := some v6Ctx }

/-- A manager with IPv6 disabled. -/
def v4Only : iptables := { v4 := v4Ctx, v6 := none }

/-- A world that counts the context operations performed so far; the operation
performed when the count is `n` fails with the text `exit status 1` and every
other one succeeds.  Every operation, failing or not, advances the count. -/
def failAt (n : Nat) : ContextOps Nat :=
  { shutDown := fun _ w => (if w = n then some "exit status 1" else none, w + 1)
    CheckAndCreate := fun _ w => (if w = n then some "exit status 1" else none, w + 1)
    add := fun _ _ w => (if w = n then some "exit status 1" else none, w + 1)
    delete := fun _ _ w => (if w = n then some "exit status 1" else none, w + 1) }

/-! ## Facts about the `strings` helpers -/

theorem HasPrefix_iff (s pre : String) :
    HasPrefix s pre = true ↔ pre.data <+: s.data := by
  unfold HasPrefix
  exact List.isPrefixOf_iff_prefix

theorem HasPrefix_eq_false_iff (s pre : String) :
    HasPrefix s pre = false ↔ ¬ pre.data <+: s.data := by
  rw [← HasPrefix_iff, Bool.not_eq_true]

theorem any_tails_singleton (c : Char) (l : List Char) :
    l.tails.any (fun t => [c].isPrefixOf t) = true ↔ c ∈ l := by
  induction l with
  | nil => simp [List.isPrefixOf]
  | cons a l ih =>
    rw [List.tails, List.any_cons, Bool.or_eq_true, ih, List.mem_cons]
    have hhead : [c].isPrefixOf (a :: l) = true ↔ c = a := by
      simp [List.isPrefixOf]
    rw [hhead]

theorem Contains_char_iff (s : String) (c : Char) :
    Contains s (String.singleton c) = true ↔ c ∈ s.data := by
  unfold Contains
  have hs : (String.singleton c).data = [c] := rfl
  rw [hs]
  exact any_tails_singleton c s.data

theorem Contains_colon_iff (s : String) : Contains s ":" = true ↔ ':' ∈ s.data :=
  Contains_char_iff s ':'

theorem Contains_dot_iff (s : String) : Contains s "." = true ↔ '.' ∈ s.data :=
  Contains_char_iff s '.'

theorem Contains_colon_eq_false (s : String) (h : ':' ∉ s.data) : Contains s ":" = false := by
  rw [← Bool.not_eq_true, Contains_colon_iff]
  exact h

theorem Contains_dot_eq_false (s : String) (h : '.' ∉ s.data) : Contains s "." = false := by
  rw [← Bool.not_eq_true, Contains_dot_iff]
  exact h

/-! ## The error texts of `Add` and `Delete` -/

theorem unrecognised_ne_ipv4_text (v v2 : String) :
    "failed inserting ban: ip " ++ v ++ " was not recognised" ≠
      "failed inserting ban ip '" ++ v2 ++ "' for iptables ipv4 rule" := by
  intro h
  have h2 := congrArg String.data h
  simp only [String.data_append] at h2
  have h3 := congrArg (fun l => l.get? 20) h2
  simp at h3

theorem unrecognised_ne_ipv6_text (v v2 : String) :
    "failed inserting ban: ip " ++ v ++ " was not recognised" ≠
      "failed inserting ban ip '" ++ v2 ++ "' for iptables ipv6 rule" := by
  intro h
  have h2 := congrArg String.data h
  simp only [String.data_append] at h2
  have h3 := congrArg (fun l => l.get? 20) h2
  simp at h3

theorem delete_unrecognised_ne_text (v : String) :
    "failed deleting ban: ip " ++ v ++ " was not recognised" ≠ "failed deleting ban" := by
  intro h
  have h2 := congrArg String.data h
  simp only [String.data_append] at h2
  have h3 := congrArg (fun l => l.get? 19) h2
  simp at h3

/-! ## Case analysis of `Add` -/

theorem Add_simulation {σ : Type} (K : ContextOps σ) (ipt : iptables) (d : Decision) (w : σ)
    (h : HasPrefix d.Type_ "simulation:" = true) :
    runFrom w (ipt.Add K d) = ⟨none, w, []⟩ := by
  simp [runFrom, iptables.Add, h, StateT.run, pure, StateT.pure]

theorem Add_v6_absent {σ : Type} (K : ContextOps σ) (ipt : iptables) (d : Decision) (w : σ)
    (h6 : ipt.v6 = none) (hc : Contains d.Value ":" = true) :
    runFrom w (ipt.Add K d) = ⟨none, w, []⟩ := by
  cases h : HasPrefix d.Type_ "simulation:" <;>
  simp [runFrom, iptables.Add, h, h6, hc, StateT.run, pure, StateT.pure, bind, StateT.bind]

theorem Add_v6_only {σ : Type} (K : ContextOps σ) (ipt : iptables) (c6 : ipTablesContext)
    (d : Decision) (w : σ) (h : HasPrefix d.Type_ "simulation:" = false)
    (h6 : ipt.v6 = some c6) (hc : Contains d.Value ":" = true)
    (hd : Contains d.Value "." = false) :
    runFrom w (ipt.Add K d) =
      ⟨(K.add c6 d w).1.map
          (fun _ => "failed inserting ban ip '" ++ d.Value ++ "' for iptables ipv4 rule"),
        (K.add c6 d w).2, [⟨.v6, .add d, (K.add c6 d w).1⟩]⟩ := by
  cases hk : K.add c6 d w with
  | mk e w1 =>
    cases e <;>
    simp [runFrom, iptables.Add, h, h6, hc, hd, hk, invoke, StateT.run, pure, StateT.pure,
      bind, StateT.bind]

theorem Add_v4_only {σ : Type} (K : ContextOps σ) (ipt : iptables)
    (d : Decision) (w : σ) (h : HasPrefix d.Type_ "simulation:" = false)
    (hc : Contains d.Value ":" = false) (hd : Contains d.Value "." = true) :
    runFrom w (ipt.Add K d) =
      ⟨(K.add ipt.v4 d w).1.map
          (fun _ => "failed inserting ban ip '" ++ d.Value ++ "' for iptables ipv6 rule"),
        (K.add ipt.v4 d w).2, [⟨.v4, .add d, (K.add ipt.v4 d w).1⟩]⟩ := by
  cases hk : K.add ipt.v4 d w with
  | mk e w1 =>
    cases e <;>
    simp [runFrom, iptables.Add, h, hc, hd, hk, invoke, StateT.run, pure, StateT.pure,
      bind, StateT.bind]

theorem Add_unrecognised {σ : Type} (K : ContextOps σ) (ipt : iptables)
    (d : Decision) (w : σ) (h : HasPrefix d.Type_ "simulation:" = false)
    (hc : Contains d.Value ":" = false) (hd : Contains d.Value "." = false) :
    runFrom w (ipt.Add K d) =
      ⟨some ("failed inserting ban: ip " ++ d.Value ++ " was not recognised"), w, []⟩ := by
  simp [runFrom, iptables.Add, h, hc, hd, StateT.run, pure, StateT.pure, bind, StateT.bind]

theorem Add_both {σ : Type} (K : ContextOps σ) (ipt : iptables) (c6 : ipTablesContext)
    (d : Decision) (w : σ) (h : HasPrefix d.Type_ "simulation:" = false)
    (h6 : ipt.v6 = some c6) (hc : Contains d.Value ":" = true)
    (hd : Contains d.Value "." = true) :
    runFrom w (ipt.Add K d) =
      match K.add c6 d w with
      | (some e, w1) =>
        ⟨some ("failed inserting ban ip '" ++ d.Value ++ "' for iptables ipv4 rule"), w1,
          [⟨.v6, .add d, some e⟩]⟩
      | (none, w1) =>
        ⟨(K.add ipt.v4 d w1).1.map
            (fun _ => "failed inserting ban ip '" ++ d.Value ++ "' for iptables ipv6 rule"),
          (K.add ipt.v4 d w1).2,
          [⟨.v6, .add d, none⟩, ⟨.v4, .add d, (K.add ipt.v4 d w1).1⟩]⟩ := by
  cases hk : K.add c6 d w with
  | mk e w1 =>
    cases e with
    | some e6 =>
      simp [runFrom, iptables.Add, h, h6, hc, hd, hk, invoke, StateT.run, pure, StateT.pure,
        bind, StateT.bind]
    | none =>
      cases hk4 : K.add ipt.v4 d w1 with
      | mk e4 w4 =>
        cases e4 <;>
        simp [runFrom, iptables.Add, h, h6, hc, hd, hk, hk4, invoke, StateT.run, pure,
          StateT.pure, bind, StateT.bind]

/-- Whenever some context operation invoked by `Add` fails, `Add` returns one of
its two "failed inserting ban ip" errors. -/
theorem Add_error_of_failed_event {σ : Type} (K : ContextOps σ) (ipt : iptables)
    (d : Decision) (w : σ)
    (hf : ∃ ev ∈ (runFrom w (ipt.Add K d)).trace, ev.res ≠ none) :
    (runFrom w (ipt.Add K d)).err =
        some ("failed inserting ban ip '" ++ d.Value ++ "' for iptables ipv4 rule") ∨
    (runFrom w (ipt.Add K d)).err =
        some ("failed inserting ban ip '" ++ d.Value ++ "' for iptables ipv6 rule") := by
  cases h : HasPrefix d.Type_ "simulation:" with
  | true =>
    rw [Add_simulation K ipt d w h] at hf
    simp at hf
  | false =>
    cases hc : Contains d.Value ":" with
    | false =>
      cases hd : Contains d.Value "." with
      | false =>
        rw [Add_unrecognised K ipt d w h hc hd] at hf
        simp at hf
      | true =>
        rw [Add_v4_only K ipt d w h hc hd] at hf ⊢
        cases hk : (K.add ipt.v4 d w).1 <;> simp [hk] at hf ⊢
    | true =>
      cases h6 : ipt.v6 with
      | none =>
        rw [Add_v6_absent K ipt d w h6 hc] at hf
        simp at hf
      | some c6 =>
        cases hd : Contains d.Value "." with
        | false =>
          rw [Add_v6_only K ipt c6 d w h h6 hc hd] at hf ⊢
          cases hk : (K.add c6 d w).1 <;> simp [hk] at hf ⊢
        | true =>
          rw [Add_both K ipt c6 d w h h6 hc hd] at hf ⊢
          cases hk : K.add c6 d w with
          | mk e w1 =>
            cases e with
            | some e6 => simp
            | none =>
              simp only [hk] at hf ⊢
              cases hk4 : (K.add ipt.v4 d w1).1 <;> simp [hk4] at hf ⊢

/-! ## Case analysis of `Delete` -/

theorem Delete_v6_absent {σ : Type} (K : ContextOps σ) (ipt : iptables) (d : Decision) (w : σ)
    (h6 : ipt.v6 = none) (hc : Contains d.Value ":" = true) :
    runFrom w (ipt.Delete K d) = ⟨none, w, []⟩ := by
  simp [runFrom, iptables.Delete, h6, hc, StateT.run, pure, StateT.pure, bind, StateT.bind]

theorem Delete_v6_only {σ : Type} (K : ContextOps σ) (ipt : iptables) (c6 : ipTablesContext)
    (d : Decision) (w : σ)
    (h6 : ipt.v6 = some c6) (hc : Contains d.Value ":" = true)
    (hd : Contains d.Value "." = false) :
    runFrom w (ipt.Delete K d) =
      ⟨(K.delete c6 d w).1.map (fun _ => "failed deleting ban"),
        (K.delete c6 d w).2, [⟨.v6, .delete d, (K.delete c6 d w).1⟩]⟩ := by
  cases hk : K.delete c6 d w with
  | mk e w1 =>
    cases e <;>
    simp [runFrom, iptables.Delete, h6, hc, hd, hk, invoke, StateT.run, pure, StateT.pure,
      bind, StateT.bind]

theorem Delete_v4_only {σ : Type} (K : ContextOps σ) (ipt : iptables)
    (d : Decision) (w : σ)
    (hc : Contains d.Value ":" = false) (hd : Contains d.Value "." = true) :
    runFrom w (ipt.Delete K d) =
      ⟨(K.delete ipt.v4 d w).1.map (fun _ => "failed deleting ban"),
        (K.delete ipt.v4 d w).2, [⟨.v4, .delete d, (K.delete ipt.v4 d w).1⟩]⟩ := by
  cases hk : K.delete ipt.v4 d w with
  | mk e w1 =>
    cases e <;>
    simp [runFrom, iptables.Delete, hc, hd, hk, invoke, StateT.run, pure, StateT.pure,
      bind, StateT.bind]

theorem Delete_unrecognised {σ : Type} (K : ContextOps σ) (ipt : iptables)
    (d : Decision) (w : σ)
    (hc : Contains d.Value ":" = false) (hd : Contains d.Value "." = false) :
    runFrom w (ipt.Delete K d) =
      ⟨some ("failed deleting ban: ip " ++ d.Value ++ " was not recognised"), w, []⟩ := by
  simp [runFrom, iptables.Delete, hc, hd, StateT.run, pure, StateT.pure, bind, StateT.bind]

theorem Delete_both {σ : Type} (K : ContextOps σ) (ipt : iptables) (c6 : ipTablesContext)
    (d : Decision) (w : σ)
    (h6 : ipt.v6 = some c6) (hc : Contains d.Value ":" = true)
    (hd : Contains d.Value "." = true) :
    runFrom w (ipt.Delete K d) =
      match K.delete c6 d w with
      | (some e, w1) => ⟨some "failed deleting ban", w1, [⟨.v6, .delete d, some e⟩]⟩
      | (none, w1) =>
        ⟨(K.delete ipt.v4 d w1).1.map (fun _ => "failed deleting ban"),
          (K.delete ipt.v4 d w1).2,
          [⟨.v6, .delete d, none⟩, ⟨.v4, .delete d, (K.delete ipt.v4 d w1).1⟩]⟩ := by
  cases hk : K.delete c6 d w with
  | mk e w1 =>
    cases e with
    | some e6 =>
      simp [runFrom, iptables.Delete, h6, hc, hd, hk, invoke, StateT.run, pure, StateT.pure,
        bind, StateT.bind]
    | none =>
      cases hk4 : K.delete ipt.v4 d w1 with
      | mk e4 w4 =>
        cases e4 <;>
        simp [runFrom, iptables.Delete, h6, hc, hd, hk, hk4, invoke, StateT.run, pure,
          StateT.pure, bind, StateT.bind]

/-- Whenever some context operation invoked by `Delete` fails, `Delete` returns
the error `failed deleting ban`. -/
theorem Delete_error_of_failed_event {σ : Type} (K : ContextOps σ) (ipt : iptables)
    (d : Decision) (w : σ)
    (hf : ∃ ev ∈ (runFrom w (ipt.Delete K d)).trace, ev.res ≠ none) :
    (runFrom w (ipt.Delete K d)).err = some "failed deleting ban" := by
  cases hc : Contains d.Value ":" with
  | false =>
    cases hd : Contains d.Value "." with
    | false =>
      rw [Delete_unrecognised K ipt d w hc hd] at hf
      simp at hf
    | true =>
      rw [Delete_v4_only K ipt d w hc hd] at hf ⊢
      cases hk : (K.delete ipt.v4 d w).1 <;> simp [hk] at hf ⊢
  | true =>
    cases h6 : ipt.v6 with
    | none =>
      rw [Delete_v6_absent K ipt d w h6 hc] at hf
      simp at hf
    | some c6 =>
      cases hd : Contains d.Value "." with
      | false =>
        rw [Delete_v6_only K ipt c6 d w h6 hc hd] at hf ⊢
        cases hk : (K.delete c6 d w).1 <;> simp [hk] at hf ⊢
      | true =>
        rw [Delete_both K ipt c6 d w h6 hc hd] at hf ⊢
        cases hk : K.delete c6 d w with
        | mk e w1 =>
          cases e with
          | some e6 => simp
          | none =>
            simp only [hk] at hf ⊢
            cases hk4 : (K.delete ipt.v4 d w1).1 <;> simp [hk4] at hf ⊢

/-! ## `Init` and `ShutDown` written out -/

theorem Init_eq {σ : Type} (K : ContextOps σ) (ipt : iptables) (w : σ) :
    runFrom w (ipt.Init K) =
      match K.shutDown ipt.v4 w with
      | (some e, w1) => ⟨some ("iptables shutdown failed: " ++ e), w1, [⟨.v4, .shutDown, some e⟩]⟩
      | (none, w1) =>
        match K.CheckAndCreate ipt.v4 w1 with
        | (some e, w2) =>
          ⟨some ("iptables init failed: " ++ e), w2,
            [⟨.v4, .shutDown, none⟩, ⟨.v4, .CheckAndCreate, some e⟩]⟩
        | (none, w2) =>
          match ipt.v6 with
          | none => ⟨none, w2, [⟨.v4, .shutDown, none⟩, ⟨.v4, .CheckAndCreate, none⟩]⟩
          | some c6 =>
            match K.shutDown c6 w2 with
            | (some e, w3) =>
              ⟨some ("iptables shutdown failed: " ++ e), w3,
                [⟨.v4, .shutDown, none⟩, ⟨.v4, .CheckAndCreate, none⟩,
                  ⟨.v6, .shutDown, some e⟩]⟩
            | (none, w3) =>
              match K.CheckAndCreate c6 w3 with
              | (some e, w4) =>
                ⟨some ("iptables init failed: " ++ e), w4,
                  [⟨.v4, .shutDown, none⟩, ⟨.v4, .CheckAndCreate, none⟩,
                    ⟨.v6, .shutDown, none⟩, ⟨.v6, .CheckAndCreate, some e⟩]⟩
              | (none, w4) =>
                ⟨none, w4,
                  [⟨.v4, .shutDown, none⟩, ⟨.v4, .CheckAndCreate, none⟩,
                    ⟨.v6, .shutDown, none⟩, ⟨.v6, .CheckAndCreate, none⟩]⟩ := by
  cases h1 : K.shutDown ipt.v4 w with
  | mk e1 w1 =>
    cases e1 with
    | some e =>
      simp [runFrom, iptables.Init, h1, invoke, StateT.run, pure, StateT.pure, bind, StateT.bind]
    | none =>
      cases h2 : K.CheckAndCreate ipt.v4 w1 with
      | mk e2 w2 =>
        cases e2 with
        | some e =>
          simp [runFrom, iptables.Init, h1, h2, invoke, StateT.run, pure, StateT.pure, bind,
            StateT.bind]
        | none =>
          cases h6 : ipt.v6 with
          | none =>
            simp [runFrom, iptables.Init, h1, h2, h6, invoke, StateT.run, pure, StateT.pure,
              bind, StateT.bind]
          | some c6 =>
            cases h3 : K.shutDown c6 w2 with
            | mk e3 w3 =>
              cases e3 with
              | some e =>
                simp [runFrom, iptables.Init, h1, h2, h6, h3, invoke, StateT.run, pure,
                  StateT.pure, bind, StateT.bind]
              | none =>
                cases h4 : K.CheckAndCreate c6 w3 with
                | mk e4 w4 =>
                  cases e4 <;>
                  simp [runFrom, iptables.Init, h1, h2, h6, h3, h4, invoke, StateT.run, pure,
                    StateT.pure, bind, StateT.bind]

theorem ShutDown_eq {σ : Type} (K : ContextOps σ) (ipt : iptables) (w : σ) :
    runFrom w (ipt.ShutDown K) =
      match K.shutDown ipt.v4 w with
      | (some e, w1) =>
        ⟨some ("iptables for ipv4 shutdown failed: " ++ e), w1, [⟨.v4, .shutDown, some e⟩]⟩
      | (none, w1) =>
        match ipt.v6 with
        | none => ⟨none, w1, [⟨.v4, .shutDown, none⟩]⟩
        | some c6 =>
          match K.shutDown c6 w1 with
          | (some e, w2) =>
            ⟨some ("iptables for ipv6 shutdown failed: " ++ e), w2,
              [⟨.v4, .shutDown, none⟩, ⟨.v6, .shutDown, some e⟩]⟩
          | (none, w2) => ⟨none, w2, [⟨.v4, .shutDown, none⟩, ⟨.v6, .shutDown, none⟩]⟩ := by
  cases h1 : K.shutDown ipt.v4 w with
  | mk e1 w1 =>
    cases e1 with
    | some e =>
      simp [runFrom, iptables.ShutDown, h1, invoke, StateT.run, pure, StateT.pure, bind,
        StateT.bind]
    | none =>
      cases h6 : ipt.v6 with
      | none =>
        simp [runFrom, iptables.ShutDown, h1, h6, invoke, StateT.run, pure, StateT.pure, bind,
          StateT.bind]
      | some c6 =>
        cases h3 : K.shutDown c6 w1 with
        | mk e3 w3 =>
          cases e3 <;>
          simp [runFrom, iptables.ShutDown, h1, h6, h3, invoke, StateT.run, pure, StateT.pure,
            bind, StateT.bind]

/-! ## The command lists built by `newIPTables` -/

theorem foldl_appendChainCmds (set : String) (chains : List String) (ctx : ipTablesContext) :
    chains.foldl (appendChainCmds set) ctx =
      { ctx with
        StartupCmds := ctx.StartupCmds ++ chains.map
          (fun v => ["-I", v, "-m", "set", "--match-set", set, "src", "-j", "DROP"])
        ShutdownCmds := ctx.ShutdownCmds ++ chains.map
          (fun v => ["-D", v, "-m", "set", "--match-set", set, "src", "-j", "DROP"])
        CheckIptableCmds := ctx.CheckIptableCmds ++ chains.map
          (fun v => ["-C", v, "-m", "set", "--match-set", set, "src", "-j", "DROP"]) } := by
  induction chains generalizing ctx with
  | nil => simp
  | cons v vs ih =>
    rw [List.foldl_cons, ih]
    simp [appendChainCmds]

/-! ## Address-family dispatch of `Add` and `Delete` -/

/-- C1, evaluated on the code: for the IPv4-mapped IPv6 address `::ffff:1.2.3.4`
(it contains both `:` and `.`), with the v6 context present and every context
operation succeeding, one call of `Add` invokes `v6.add` and then `v4.add`. -/
theorem C1_Add_invokes_both_families :
    (runFrom () (dualStack.Add okOps ⟨"ban", "::ffff:1.2.3.4"⟩)).trace =
      [⟨.v6, .add ⟨"ban", "::ffff:1.2.3.4"⟩, none⟩,
        ⟨.v4, .add ⟨"ban", "::ffff:1.2.3.4"⟩, none⟩] := by
  decide

/-- C2: when `Value` contains `:` and no `.` and the v6 context is present, `Add`
(for a `Type` that does not start with `simulation:`) invokes exactly `v6.add`,
and `Delete` (for any `Type`) invokes exactly `v6.delete`; nothing is invoked on
the v4 context, and the call returns `nil` exactly when that v6 operation does. -/
theorem C2_v6_exclusive_dispatch {σ : Type} (K : ContextOps σ) (ipt : iptables)
    (c6 : ipTablesContext) (d : Decision) (w : σ) (h6 : ipt.v6 = some c6)
    (hcolon : ':' ∈ d.Value.data) (hdot : '.' ∉ d.Value.data) :
    (¬ "simulation:".data <+: d.Type_.data →
      (runFrom w (ipt.Add K d)).trace = [⟨.v6, .add d, (K.add c6 d w).1⟩] ∧
      (runFrom w (ipt.Add K d)).world = (K.add c6 d w).2 ∧
      ((runFrom w (ipt.Add K d)).err = none ↔ (K.add c6 d w).1 = none)) ∧
    ((runFrom w (ipt.Delete K d)).trace = [⟨.v6, .delete d, (K.delete c6 d w).1⟩] ∧
      (runFrom w (ipt.Delete K d)).world = (K.delete c6 d w).2 ∧
      ((runFrom w (ipt.Delete K d)).err = none ↔ (K.delete c6 d w).1 = none)) := by
  have hc := (Contains_colon_iff d.Value).2 hcolon
  have hd := Contains_dot_eq_false d.Value hdot
  refine ⟨fun hsim => ?_, ?_⟩
  · rw [Add_v6_only K ipt c6 d w ((HasPrefix_eq_false_iff _ _).2 hsim) h6 hc hd]
    simp
  · rw [Delete_v6_only K ipt c6 d w h6 hc hd]
    simp

theorem C2_v6_exclusive_dispatch_witness :
    dualStack.v6 = some v6Ctx ∧ ':' ∈ "2001:db8::1".data ∧ '.' ∉ "2001:db8::1".data ∧
    ¬ "simulation:".data <+: "ban".data ∧
    (runFrom () (dualStack.Add okOps ⟨"ban", "2001:db8::1"⟩)).trace =
      [⟨.v6, .add ⟨"ban", "2001:db8::1"⟩, none⟩] ∧
    (runFrom () (dualStack.Delete okOps ⟨"ban", "2001:db8::1"⟩)).trace =
      [⟨.v6, .delete ⟨"ban", "2001:db8::1"⟩, none⟩] :=
  ⟨rfl, by decide, by decide, by decide,
    ((C2_v6_exclusive_dispatch okOps dualStack v6Ctx ⟨"ban", "2001:db8::1"⟩ () rfl
      (by decide) (by decide)).1 (by decide)).1,
    (C2_v6_exclusive_dispatch okOps dualStack v6Ctx ⟨"ban", "2001:db8::1"⟩ () rfl
      (by decide) (by decide)).2.1⟩

/-- C3: when `Value` contains `.` and no `:`, whether or not the v6 context is
present, `Add` (for a `Type` that does not start with `simulation:`) invokes
exactly `v4.add`, and `Delete` (for any `Type`) invokes exactly `v4.delete`;
nothing is invoked on the v6 context, and the call returns `nil` exactly when
that v4 operation does. -/
theorem C3_v4_exclusive_dispatch {σ : Type} (K : ContextOps σ) (ipt : iptables)
    (d : Decision) (w : σ)
    (hdot : '.' ∈ d.Value.data) (hcolon : ':' ∉ d.Value.data) :
    (¬ "simulation:".data <+: d.Type_.data →
      (runFrom w (ipt.Add K d)).trace = [⟨.v4, .add d, (K.add ipt.v4 d w).1⟩] ∧
      (runFrom w (ipt.Add K d)).world = (K.add ipt.v4 d w).2 ∧
      ((runFrom w (ipt.Add K d)).err = none ↔ (K.add ipt.v4 d w).1 = none)) ∧
    ((runFrom w (ipt.Delete K d)).trace = [⟨.v4, .delete d, (K.delete ipt.v4 d w).1⟩] ∧
      (runFrom w (ipt.Delete K d)).world = (K.delete ipt.v4 d w).2 ∧
      ((runFrom w (ipt.Delete K d)).err = none ↔ (K.delete ipt.v4 d w).1 = none)) := by
  have hd := (Contains_dot_iff d.Value).2 hdot
  have hc := Contains_colon_eq_false d.Value hcolon
  refine ⟨fun hsim => ?_, ?_⟩
  · rw [Add_v4_only K ipt d w ((HasPrefix_eq_false_iff _ _).2 hsim) hc hd]
    simp
  · rw [Delete_v4_only K ipt d w hc hd]
    simp

theorem C3_v4_exclusive_dispatch_witness :
    '.' ∈ "203.0.113.5".data ∧ ':' ∉ "203.0.113.5".data ∧
    ¬ "simulation:".data <+: "ban".data ∧
    (runFrom () (dualStack.Add okOps ⟨"ban", "203.0.113.5"⟩)).trace =
      [⟨.v4, .add ⟨"ban", "203.0.113.5"⟩, none⟩] ∧
    (runFrom () (dualStack.Delete okOps ⟨"simulation:ban", "203.0.113.5"⟩)).trace =
      [⟨.v4, .delete ⟨"simulation:ban", "203.0.113.5"⟩, none⟩] :=
  ⟨by decide, by decide, by decide,
    ((C3_v4_exclusive_dispatch okOps dualStack ⟨"ban", "203.0.113.5"⟩ ()
      (by decide) (by decide)).1 (by decide)).1,
    (C3_v4_exclusive_dispatch okOps dualStack ⟨"simulation:ban", "203.0.113.5"⟩ ()
      (by decide) (by decide)).2.1⟩

/-- C4: when `Type` starts with `simulation:`, for every `Value` and every
manager, `Add` returns `nil`, invokes no context operation and leaves the world
as it was. -/
theorem C4_Add_simulation_noop {σ : Type} (K : ContextOps σ) (ipt : iptables)
    (d : Decision) (w : σ) (hsim : "simulation:".data <+: d.Type_.data) :
    (runFrom w (ipt.Add K d)).err = none ∧
    (runFrom w (ipt.Add K d)).trace = [] ∧
    (runFrom w (ipt.Add K d)).world = w := by
  rw [Add_simulation K ipt d w ((HasPrefix_iff _ _).2 hsim)]
  simp

theorem C4_Add_simulation_noop_witness :
    "simulation:".data <+: "simulation:ban".data ∧
    (runFrom () (dualStack.Add failOps ⟨"simulation:ban", "localhost"⟩)).err = none ∧
    (runFrom () (dualStack.Add failOps ⟨"simulation:ban", "localhost"⟩)).trace = [] :=
  ⟨by decide,
    (C4_Add_simulation_noop failOps dualStack ⟨"simulation:ban", "localhost"⟩ ()
      (by decide)).1,
    (C4_Add_simulation_noop failOps dualStack ⟨"simulation:ban", "localhost"⟩ ()
      (by decide)).2.1⟩

/-- C5: when the v6 context is absent and `Value` contains `:`, `Add` and
`Delete` both return `nil`, invoke no context operation (not even on the v4
context when `Value` also contains `.`) and leave the world as it was. -/
theorem C5_v6_absent_noop {σ : Type} (K : ContextOps σ) (ipt : iptables)
    (d : Decision) (w : σ) (h6 : ipt.v6 = none) (hcolon : ':' ∈ d.Value.data) :
    ((runFrom w (ipt.Add K d)).err = none ∧ (runFrom w (ipt.Add K d)).trace = [] ∧
      (runFrom w (ipt.Add K d)).world = w) ∧
    ((runFrom w (ipt.Delete K d)).err = none ∧ (runFrom w (ipt.Delete K d)).trace = [] ∧
      (runFrom w (ipt.Delete K d)).world = w) := by
  have hc := (Contains_colon_iff d.Value).2 hcolon
  rw [Add_v6_absent K ipt d w h6 hc, Delete_v6_absent K ipt d w h6 hc]
  simp

theorem C5_v6_absent_noop_witness :
    v4Only.v6 = none ∧ ':' ∈ "::ffff:1.2.3.4".data ∧
    (runFrom () (v4Only.Add failOps ⟨"ban", "::ffff:1.2.3.4"⟩)).err = none ∧
    (runFrom () (v4Only.Add failOps ⟨"ban", "::ffff:1.2.3.4"⟩)).trace = [] ∧
    (runFrom () (v4Only.Delete failOps ⟨"ban", "::ffff:1.2.3.4"⟩)).err = none ∧
    (runFrom () (v4Only.Delete failOps ⟨"ban", "::ffff:1.2.3.4"⟩)).trace = [] :=
  ⟨rfl, by decide,
    (C5_v6_absent_noop failOps v4Only ⟨"ban", "::ffff:1.2.3.4"⟩ () rfl (by decide)).1.1,
    (C5_v6_absent_noop failOps v4Only ⟨"ban", "::ffff:1.2.3.4"⟩ () rfl (by decide)).1.2.1,
    (C5_v6_absent_noop failOps v4Only ⟨"ban", "::ffff:1.2.3.4"⟩ () rfl (by decide)).2.1,
    (C5_v6_absent_noop failOps v4Only ⟨"ban", "::ffff:1.2.3.4"⟩ () rfl (by decide)).2.2.1⟩

/-- C6: when `Value` contains neither `:` nor `.`, `Add` (for a `Type` that does
not start with `simulation:`) and `Delete` each return the "was not recognised"
error, invoke no context operation and leave the world as it was; and for every
manager, decision (so every `Value`) and world in which a context operation
invoked by the same operation fails, the error returned there has a different
text. -/
theorem C6_unrecognised_value_error {σ : Type} (K : ContextOps σ) (ipt : iptables)
    (d : Decision) (w : σ) (hcolon : ':' ∉ d.Value.data) (hdot : '.' ∉ d.Value.data) :
    (¬ "simulation:".data <+: d.Type_.data →
      (runFrom w (ipt.Add K d)).err =
        some ("failed inserting ban: ip " ++ d.Value ++ " was not recognised") ∧
      (runFrom w (ipt.Add K d)).trace = [] ∧
      (runFrom w (ipt.Add K d)).world = w ∧
      ∀ (τ : Type) (K2 : ContextOps τ) (ipt2 : iptables) (d2 : Decision) (w2 : τ),
        (∃ ev ∈ (runFrom w2 (ipt2.Add K2 d2)).trace, ev.res ≠ none) →
        (runFrom w2 (ipt2.Add K2 d2)).err ≠ none ∧
        (runFrom w2 (ipt2.Add K2 d2)).err ≠ (runFrom w (ipt.Add K d)).err) ∧
    ((runFrom w (ipt.Delete K d)).err =
        some ("failed deleting ban: ip " ++ d.Value ++ " was not recognised") ∧
      (runFrom w (ipt.Delete K d)).trace = [] ∧
      (runFrom w (ipt.Delete K d)).world = w ∧
      ∀ (τ : Type) (K2 : ContextOps τ) (ipt2 : iptables) (d2 : Decision) (w2 : τ),
        (∃ ev ∈ (runFrom w2 (ipt2.Delete K2 d2)).trace, ev.res ≠ none) →
        (runFrom w2 (ipt2.Delete K2 d2)).err ≠ none ∧
        (runFrom w2 (ipt2.Delete K2 d2)).err ≠ (runFrom w (ipt.Delete K d)).err) := by
  have hc := Contains_colon_eq_false d.Value hcolon
  have hd := Contains_dot_eq_false d.Value hdot
  refine ⟨fun hsim => ?_, ?_⟩
  · rw [Add_unrecognised K ipt d w ((HasPrefix_eq_false_iff _ _).2 hsim) hc hd]
    refine ⟨rfl, rfl, rfl, ?_⟩
    intro τ K2 ipt2 d2 w2 hf
    rcases Add_error_of_failed_event K2 ipt2 d2 w2 hf with h4 | h6
    · rw [h4]
      refine ⟨by simp, ?_⟩
      intro heq
      exact unrecognised_ne_ipv4_text d.Value d2.Value (Option.some.inj heq).symm
    · rw [h6]
      refine ⟨by simp, ?_⟩
      intro heq
      exact unrecognised_ne_ipv6_text d.Value d2.Value (Option.some.inj heq).symm
  · rw [Delete_unrecognised K ipt d w hc hd]
    refine ⟨rfl, rfl, rfl, ?_⟩
    intro τ K2 ipt2 d2 w2 hf
    rw [Delete_error_of_failed_event K2 ipt2 d2 w2 hf]
    refine ⟨by simp, ?_⟩
    intro heq
    exact delete_unrecognised_ne_text d.Value (Option.some.inj heq).symm

theorem C6_unrecognised_value_error_witness :
    ':' ∉ "localhost".data ∧ '.' ∉ "localhost".data ∧
    ¬ "simulation:".data <+: "ban".data ∧
    (runFrom () (dualStack.Add okOps ⟨"ban", "localhost"⟩)).err =
      some "failed inserting ban: ip localhost was not recognised" ∧
    (runFrom () (dualStack.Add okOps ⟨"ban", "localhost"⟩)).trace = [] ∧
    (runFrom () (dualStack.Delete okOps ⟨"ban", "localhost"⟩)).err =
      some "failed deleting ban: ip localhost was not recognised" ∧
    (runFrom () (dualStack.Delete okOps ⟨"ban", "localhost"⟩)).trace = [] ∧
    (runFrom () (dualStack.Add failOps ⟨"ban", "203.0.113.5"⟩)).err ≠
      (runFrom () (dualStack.Add okOps ⟨"ban", "localhost"⟩)).err :=
  ⟨by decide, by decide, by decide,
    ((C6_unrecognised_value_error okOps dualStack ⟨"ban", "localhost"⟩ ()
      (by decide) (by decide)).1 (by decide)).1,
    ((C6_unrecognised_value_error okOps dualStack ⟨"ban", "localhost"⟩ ()
      (by decide) (by decide)).1 (by decide)).2.1,
    (C6_unrecognised_value_error okOps dualStack ⟨"ban", "localhost"⟩ ()
      (by decide) (by decide)).2.1,
    (C6_unrecognised_value_error okOps dualStack ⟨"ban", "localhost"⟩ ()
      (by decide) (by decide)).2.2.1,
    (((C6_unrecognised_value_error okOps dualStack ⟨"ban", "localhost"⟩ ()
      (by decide) (by decide)).1 (by decide)).2.2.2 Unit failOps dualStack
        ⟨"ban", "203.0.113.5"⟩ () ⟨⟨.v4, .add ⟨"ban", "203.0.113.5"⟩, some "exit status 1"⟩,
          by decide, by decide⟩).2⟩

/-- C7, evaluated on the code: with the v6 context present and every context
operation failing, `Add` of `2001:db8::1` invokes only `v6.add` and returns an
error whose text names `ipv4` and does not contain `ipv6`; `Add` of
`203.0.113.5` invokes only `v4.add` and returns an error whose text names `ipv6`
and does not contain `ipv4`. -/
theorem C7_Add_error_names_other_family :
    ((runFrom () (dualStack.Add failOps ⟨"ban", "2001:db8::1"⟩)).trace =
        [⟨.v6, .add ⟨"ban", "2001:db8::1"⟩, some "exit status 1"⟩] ∧
      (runFrom () (dualStack.Add failOps ⟨"ban", "2001:db8::1"⟩)).err =
        some "failed inserting ban ip '2001:db8::1' for iptables ipv4 rule" ∧
      Contains "failed inserting ban ip '2001:db8::1' for iptables ipv4 rule" "ipv6" = false) ∧
    ((runFrom () (dualStack.Add failOps ⟨"ban", "203.0.113.5"⟩)).trace =
        [⟨.v4, .add ⟨"ban", "203.0.113.5"⟩, some "exit status 1"⟩] ∧
      (runFrom () (dualStack.Add failOps ⟨"ban", "203.0.113.5"⟩)).err =
        some "failed inserting ban ip '203.0.113.5' for iptables ipv6 rule" ∧
      Contains "failed inserting ban ip '203.0.113.5' for iptables ipv6 rule" "ipv4" = false) := by
  decide

/-! ## Lifecycle: `Init` and `ShutDown` -/

/-- C8: the context operations invoked by `Init`, in order, are an initial segment of
`[v4.shutDown, v4.CheckAndCreate, v6.shutDown, v6.CheckAndCreate]` (of the first
two only when the v6 context is absent); every invoked operation except
possibly the last one succeeded, so nothing follows a failure; `Init` returns an
error exactly when an invoked operation failed; and it returns `nil` exactly
when the whole sequence was invoked and every operation succeeded.

The second half ties this to the context operations themselves, for each of
their possible outcomes: `v4.shutDown` runs on `ipt.v4` in the initial world,
`v4.CheckAndCreate` on `ipt.v4` in the world `v4.shutDown` left, `v6.shutDown`
on the v6 context in the world `v4.CheckAndCreate` left, and `v6.CheckAndCreate`
on the v6 context in the world `v6.shutDown` left; the first of them that fails
with text `e` ends `Init` there, with the error `iptables shutdown failed: e`
(for a `shutDown`) or `iptables init failed: e` (for a `CheckAndCreate`), the
world that operation left, and exactly the operations up to it invoked; when
none fails `Init` returns `nil` in the world the last operation left. -/
theorem C8_Init_fail_fast_sequence {σ : Type} (K : ContextOps σ) (ipt : iptables) (w : σ) :
    ((runFrom w (ipt.Init K)).trace.map (fun e => (e.recv, e.op)) <+:
        ([(Family.v4, CtxOp.shutDown), (Family.v4, CtxOp.CheckAndCreate)] ++
          if ipt.v6.isSome then [(Family.v6, CtxOp.shutDown), (Family.v6, CtxOp.CheckAndCreate)]
          else []) ∧
      (∀ e ∈ (runFrom w (ipt.Init K)).trace.dropLast, e.res = none) ∧
      ((∃ e ∈ (runFrom w (ipt.Init K)).trace, e.res ≠ none) ↔
        (runFrom w (ipt.Init K)).err ≠ none) ∧
      ((runFrom w (ipt.Init K)).err = none ↔
        ((runFrom w (ipt.Init K)).trace.map (fun e => (e.recv, e.op)) =
          ([(Family.v4, CtxOp.shutDown), (Family.v4, CtxOp.CheckAndCreate)] ++
            if ipt.v6.isSome then
              [(Family.v6, CtxOp.shutDown), (Family.v6, CtxOp.CheckAndCreate)]
            else []) ∧
          ∀ e ∈ (runFrom w (ipt.Init K)).trace, e.res = none))) ∧
    ((∀ (e : String) (w1 : σ), K.shutDown ipt.v4 w = (some e, w1) →
        runFrom w (ipt.Init K) =
          ⟨some ("iptables shutdown failed: " ++ e), w1, [⟨.v4, .shutDown, some e⟩]⟩) ∧
      (∀ (w1 : σ) (e : String) (w2 : σ), K.shutDown ipt.v4 w = (none, w1) →
        K.CheckAndCreate ipt.v4 w1 = (some e, w2) →
        runFrom w (ipt.Init K) =
          ⟨some ("iptables init failed: " ++ e), w2,
            [⟨.v4, .shutDown, none⟩, ⟨.v4, .CheckAndCreate, some e⟩]⟩) ∧
      (∀ (w1 w2 : σ), K.shutDown ipt.v4 w = (none, w1) →
        K.CheckAndCreate ipt.v4 w1 = (none, w2) → ipt.v6 = none →
        runFrom w (ipt.Init K) =
          ⟨none, w2, [⟨.v4, .shutDown, none⟩, ⟨.v4, .CheckAndCreate, none⟩]⟩) ∧
      (∀ (c6 : ipTablesContext) (w1 w2 : σ) (e : String) (w3 : σ),
        K.shutDown ipt.v4 w = (none, w1) → K.CheckAndCreate ipt.v4 w1 = (none, w2) →
        ipt.v6 = some c6 → K.shutDown c6 w2 = (some e, w3) →
        runFrom w (ipt.Init K) =
          ⟨some ("iptables shutdown failed: " ++ e), w3,
            [⟨.v4, .shutDown, none⟩, ⟨.v4, .CheckAndCreate, none⟩,
              ⟨.v6, .shutDown, some e⟩]⟩) ∧
      (∀ (c6 : ipTablesContext) (w1 w2 w3 : σ) (e : String) (w4 : σ),
        K.shutDown ipt.v4 w = (none, w1) → K.CheckAndCreate ipt.v4 w1 = (none, w2) →
        ipt.v6 = some c6 → K.shutDown c6 w2 = (none, w3) →
        K.CheckAndCreate c6 w3 = (some e, w4) →
        runFrom w (ipt.Init K) =
          ⟨some ("iptables init failed: " ++ e), w4,
            [⟨.v4, .shutDown, none⟩, ⟨.v4, .CheckAndCreate, none⟩,
              ⟨.v6, .shutDown, none⟩, ⟨.v6, .CheckAndCreate, some e⟩]⟩) ∧
      (∀ (c6 : ipTablesContext) (w1 w2 w3 w4 : σ),
        K.shutDown ipt.v4 w = (none, w1) → K.CheckAndCreate ipt.v4 w1 = (none, w2) →
        ipt.v6 = some c6 → K.shutDown c6 w2 = (none, w3) →
        K.CheckAndCreate c6 w3 = (none, w4) →
        runFrom w (ipt.Init K) =
          ⟨none, w4,
            [⟨.v4, .shutDown, none⟩, ⟨.v4, .CheckAndCreate, none⟩,
              ⟨.v6, .shutDown, none⟩, ⟨.v6, .CheckAndCreate, none⟩]⟩)) := by
  refine ⟨?_, ?_, ?_, ?_, ?_, ?_, ?_⟩
  · rw [Init_eq]
    cases h1 : K.shutDown ipt.v4 w with
    | mk e1 w1 =>
      cases e1 with
      | some e => cases h6 : ipt.v6 <;> simp [List.prefix_iff_eq_take]
      | none =>
        cases h2 : K.CheckAndCreate ipt.v4 w1 with
        | mk e2 w2 =>
          cases e2 with
          | some e => cases h6 : ipt.v6 <;> simp [h2, List.prefix_iff_eq_take]
          | none =>
            cases h6 : ipt.v6 with
            | none => simp [h2]
            | some c6 =>
              cases h3 : K.shutDown c6 w2 with
              | mk e3 w3 =>
                cases e3 with
                | some e => simp [h2, h3, List.prefix_iff_eq_take]
                | none =>
                  cases h4 : K.CheckAndCreate c6 w3 with
                  | mk e4 w4 =>
                    cases e4 <;> simp [h2, h3, h4, List.prefix_iff_eq_take]
  · intro e w1 h1
    rw [Init_eq, h1]
  · intro w1 e w2 h1 h2
    rw [Init_eq, h1]
    simp only [h2]
  · intro w1 w2 h1 h2 h6
    rw [Init_eq, h1]
    simp only [h2, h6]
  · intro c6 w1 w2 e w3 h1 h2 h6 h3
    rw [Init_eq, h1]
    simp only [h2, h6, h3]
  · intro c6 w1 w2 w3 e w4 h1 h2 h6 h3 h4
    rw [Init_eq, h1]
    simp only [h2, h6, h3, h4]
  · intro c6 w1 w2 w3 w4 h1 h2 h6 h3 h4
    rw [Init_eq, h1]
    simp only [h2, h6, h3, h4]

/-- C9: `ShutDown` invokes `v4.shutDown` first.  If that fails, `ShutDown`
returns an error and invokes nothing else.  If it succeeds and the v6 context is
present, `v6.shutDown` is invoked exactly once, after it, and `ShutDown` returns
`nil` exactly when `v6.shutDown` does.  If the v6 context is absent, `v4.shutDown`
is the only invocation and `ShutDown` returns `nil` exactly when it does.  Every
operation `ShutDown` invokes is a `shutDown`. -/
theorem C9_ShutDown_order {σ : Type} (K : ContextOps σ) (ipt : iptables) (w : σ) :
    (runFrom w (ipt.ShutDown K)).trace.head? =
      some ⟨.v4, .shutDown, (K.shutDown ipt.v4 w).1⟩ ∧
    ((K.shutDown ipt.v4 w).1 ≠ none →
      (runFrom w (ipt.ShutDown K)).err ≠ none ∧
      (runFrom w (ipt.ShutDown K)).trace = [⟨.v4, .shutDown, (K.shutDown ipt.v4 w).1⟩]) ∧
    (∀ c6 : ipTablesContext, (K.shutDown ipt.v4 w).1 = none → ipt.v6 = some c6 →
      (runFrom w (ipt.ShutDown K)).trace =
        [⟨.v4, .shutDown, none⟩,
          ⟨.v6, .shutDown, (K.shutDown c6 (K.shutDown ipt.v4 w).2).1⟩] ∧
      ((runFrom w (ipt.ShutDown K)).err = none ↔
        (K.shutDown c6 (K.shutDown ipt.v4 w).2).1 = none)) ∧
    (ipt.v6 = none →
      (runFrom w (ipt.ShutDown K)).trace = [⟨.v4, .shutDown, (K.shutDown ipt.v4 w).1⟩] ∧
      ((runFrom w (ipt.ShutDown K)).err = none ↔ (K.shutDown ipt.v4 w).1 = none)) ∧
    (∀ e ∈ (runFrom w (ipt.ShutDown K)).trace, e.op = CtxOp.shutDown) := by
  rw [ShutDown_eq]
  cases h1 : K.shutDown ipt.v4 w with
  | mk e1 w1 =>
    cases e1 with
    | some e => simp
    | none =>
      cases h6 : ipt.v6 with
      | none => simp
      | some c6 =>
        cases h3 : K.shutDown c6 w1 with
        | mk e3 w3 =>
          cases e3 <;> simp [h3]

theorem C8_Init_fail_fast_sequence_witness :
    ((runFrom () (dualStack.Init okOps)).err = none ∧
      (runFrom () (dualStack.Init okOps)).trace.map (fun e => (e.recv, e.op)) =
        [(Family.v4, CtxOp.shutDown), (Family.v4, CtxOp.CheckAndCreate),
          (Family.v6, CtxOp.shutDown), (Family.v6, CtxOp.CheckAndCreate)]) ∧
    ((failAt 2).shutDown v4Ctx 0 = (none, 1) ∧ (failAt 2).CheckAndCreate v4Ctx 1 = (none, 2) ∧
      dualStack.v6 = some v6Ctx ∧ (failAt 2).shutDown v6Ctx 2 = (some "exit status 1", 3) ∧
      runFrom 0 (dualStack.Init (failAt 2)) =
        ⟨some ("iptables shutdown failed: " ++ "exit status 1"), 3,
          [⟨.v4, .shutDown, none⟩, ⟨.v4, .CheckAndCreate, none⟩,
            ⟨.v6, .shutDown, some "exit status 1"⟩]⟩) ∧
    (failOps.shutDown v4Ctx () = (some "exit status 1", ()) ∧
      runFrom () (v4Only.Init failOps) =
        ⟨some ("iptables shutdown failed: " ++ "exit status 1"), (),
          [⟨.v4, .shutDown, some "exit status 1"⟩]⟩) :=
  ⟨⟨by decide, ((C8_Init_fail_fast_sequence okOps dualStack ()).1.2.2.2.1 (by decide)).1⟩,
    ⟨rfl, rfl, rfl, rfl,
      (C8_Init_fail_fast_sequence (failAt 2) dualStack 0).2.2.2.2.1 v6Ctx 1 2
        "exit status 1" 3 rfl rfl rfl rfl⟩,
    ⟨rfl, (C8_Init_fail_fast_sequence failOps v4Only ()).2.1 "exit status 1" () rfl⟩⟩

theorem C9_ShutDown_order_witness :
    (failOps.shutDown dualStack.v4 ()).1 ≠ none ∧
    (runFrom () (dualStack.ShutDown failOps)).err ≠ none ∧
    (runFrom () (dualStack.ShutDown failOps)).trace =
      [⟨.v4, .shutDown, some "exit status 1"⟩] :=
  ⟨by decide, (C9_ShutDown_order failOps dualStack ()).2.1 (by decide)⟩

/-! ## Construction: `newIPTables` -/

/-- C10: when `newIPTables` succeeds, the v4 context's set is
`crowdsec-blacklists`, the v6 context's set (when the context is built) is
`crowdsec6-blacklists`, a different name; and in each context built the three
command lists have the length of the configured chain list, and at every index
`i` of that list, holding chain `v`, the three commands are
`[verb, v, "-m", "set", "--match-set", <the context's set name>, "src", "-j", "DROP"]`
with `verb` being `-I` in `StartupCmds`, `-D` in `ShutdownCmds` and `-C` in
`CheckIptableCmds`. -/
theorem C10_newIPTables_command_lists (LookPath : String → Option String)
    (config : bouncerConfig) (ipt : iptables)
    (hok : newIPTables LookPath config = .ok ipt) :
    ipt.v4.SetName = "crowdsec-blacklists" ∧
    (∀ c6 : ipTablesContext, ipt.v6 = some c6 →
      c6.SetName = "crowdsec6-blacklists" ∧ c6.SetName ≠ ipt.v4.SetName) ∧
    ∀ ctx : ipTablesContext, (ctx = ipt.v4 ∨ ipt.v6 = some ctx) →
      ctx.StartupCmds.length = config.IptablesChains.length ∧
      ctx.ShutdownCmds.length = config.IptablesChains.length ∧
      ctx.CheckIptableCmds.length = config.IptablesChains.length ∧
      ∀ (i : Nat) (v : String), config.IptablesChains[i]? = some v →
        ctx.StartupCmds[i]? =
          some ["-I", v, "-m", "set", "--match-set", ctx.SetName, "src", "-j", "DROP"] ∧
        ctx.ShutdownCmds[i]? =
          some ["-D", v, "-m", "set", "--match-set", ctx.SetName, "src", "-j", "DROP"] ∧
        ctx.CheckIptableCmds[i]? =
          some ["-C", v, "-m", "set", "--match-set", ctx.SetName, "src", "-j", "DROP"] := by
  unfold newIPTables at hok
  simp only [foldl_appendChainCmds] at hok
  cases hs : LookPath "ipset" with
  | none => simp [hs] at hok
  | some ipsetBin =>
    cases ht : LookPath "iptables" with
    | none => simp [hs, ht] at hok
    | some bin =>
      cases hdis : config.DisableIPV6 with
      | true =>
        simp [hs, ht, hdis] at hok
        subst hok
        simp
      | false =>
        cases ht6 : LookPath "ip6tables" with
        | none => simp [hs, ht, hdis, ht6] at hok
        | some bin6 =>
          simp [hs, ht, hdis, ht6] at hok
          subst hok
          simp

theorem C10_newIPTables_command_lists_witness :
    newIPTables lookAll inputConfig = .ok dualStack ∧
    dualStack.v4.SetName = "crowdsec-blacklists" ∧
    v6Ctx.SetName = "crowdsec6-blacklists" ∧
    v6Ctx.StartupCmds.length = inputConfig.IptablesChains.length ∧
    v6Ctx.ShutdownCmds[0]? =
      some ["-D", "INPUT", "-m", "set", "--match-set", v6Ctx.SetName, "src", "-j", "DROP"] :=
  ⟨rfl,
    (C10_newIPTables_command_lists lookAll inputConfig dualStack rfl).1,
    ((C10_newIPTables_command_lists lookAll inputConfig dualStack rfl).2.1
      v6Ctx rfl).1,
    ((C10_newIPTables_command_lists lookAll inputConfig dualStack rfl).2.2
      v6Ctx (Or.inr rfl)).1,
    (((C10_newIPTables_command_lists lookAll inputConfig dualStack rfl).2.2
      v6Ctx (Or.inr rfl)).2.2.2 0 "INPUT" rfl).2.1⟩
